import Mathlib

/-!
Shallow embedding of the SEMS wallbox session client
(`custom_components/sems-wallbox/sems_api.py`).

Python values flowing through the client are modelled by `Json`
(Python `None` is `Json.null`, a decoded JSON object is `Json.obj`).
Network interaction is modelled by an environment `Env` that scripts,
per endpoint, the outcome of each successive `requests.post` call.
The client state `St` carries the stored token (`self._token`), one
call counter per endpoint and the trace of emitted events (requests
and log records).  Exceptions are modelled with `Except PyErr`; a
Python function whose whole body sits inside a catch-all
`try ... except Exception` is embedded as a throwing body
(`...Body`, the code inside the `try`) plus a total wrapper that
matches on the body's outcome exactly as the handler does.
-/

namespace Sems

/-- Decoded JSON / Python values.  `null` doubles as Python `None`. -/
inductive Json where
  | null : Json
  | bool : Bool → Json
  | num : Int → Json
  | str : String → Json
  | obj : List (String × Json) → Json

/-- Exceptions that can be raised inside the client.  All of them are
`Exception` subclasses in Python, so all are caught by the catch-all
handlers. -/
inductive PyErr where
  | requestError : PyErr
  | httpError : PyErr
  | jsonDecodeError : PyErr
  | keyError : PyErr
  | typeError : PyErr
  | outOfRetries : PyErr
deriving DecidableEq

/-- Python `x is None` for our value model. -/
def Json.isNull : Json → Bool
  | Json.null => true
  | _ => false

/-- Python `x == "s"` where `x` is an arbitrary decoded value: true
exactly when `x` is that string.  (`x != "s"` is its negation.) -/
def Json.eqStr : Json → String → Bool
  | Json.str s, t => s == t
  | _, _ => false

/-- First binding of a key in a decoded-object field list. -/
def findField : List (String × Json) → String → Option Json
  | [], _ => none
  | (k, v) :: fs, key => if k = key then some v else findField fs key

/-- Python `d[key]` on a decoded value: `KeyError` when the key is
absent, `TypeError` when the value is not a dict. -/
def Json.getKey : Json → String → Except PyErr Json
  | Json.obj fs, key =>
      match findField fs key with
      | some v => Except.ok v
      | none => Except.error PyErr.keyError
  | _, _ => Except.error PyErr.typeError

/-- Update (or append) a key binding, keeping insertion order as a
Python dict does. -/
def setField : List (String × Json) → String → Json → List (String × Json)
  | [], key, v => [(key, v)]
  | (k, w) :: fs, key, v =>
      if k = key then (key, v) :: fs else (k, w) :: setField fs key v

/-- Python `d[key] = v`: `TypeError` when `d` is not a dict. -/
def Json.setKey : Json → String → Json → Except PyErr Json
  | Json.obj fs, key, v => Except.ok (Json.obj (setField fs key v))
  | _, _, _ => Except.error PyErr.typeError

/-- An HTTP response as the client sees it: the status code and the
decoded JSON body (`none` when `response.json()` raises a decode
error). -/
structure Resp where
  status_code : Nat
  body : Option Json

/-- Outcome of one `requests.post` call: a transport-level exception or
a response. -/
inductive NetResult where
  | err : NetResult
  | ok : Resp → NetResult

/-- The scripted network environment: for each endpoint, the outcome of
its `i`-th POST (counting from 0). -/
structure Env where
  login : Nat → NetResult
  status : Nat → NetResult
  charging : Nat → NetResult
  chargeMode : Nat → NetResult

/-- Log levels used by the module logger. -/
inductive LogLevel where
  | debug : LogLevel
  | info : LogLevel
  | warning : LogLevel
  | error : LogLevel
deriving DecidableEq

/-- Observable events, in program order: one per `requests.post`
(carrying the serialized body, and for authenticated calls the token
placed in the request headers) and one per logger call. -/
inductive Event where
  | postLogin : String → Event
  | postWallbox : Json → String → Event
  | postCharging : Json → Json → Event
  | postChargeMode : Json → Json → Event
  | log : LogLevel → Event

/-- The fixed credentials of a `SemsApi` instance (`self._username`,
`self._password`). -/
structure Creds where
  username : String
  password : String

/-- Mutable client state plus the observation trace: `token` is
`self._token`; the four counters index the next scripted outcome per
endpoint; `events` is the append-only trace. -/
structure St where
  token : Json
  nLogin : Nat
  nStatus : Nat
  nCharging : Nat
  nChargeMode : Nat
  events : List Event

/-- Append one event to the trace. -/
def pushEvent (e : Event) (st : St) : St :=
  { st with events := st.events ++ [e] }

def logDebug (st : St) : St := pushEvent (Event.log LogLevel.debug) st

def logInfo (st : St) : St := pushEvent (Event.log LogLevel.info) st

def logWarn (st : St) : St := pushEvent (Event.log LogLevel.warning) st

def logError (st : St) : St := pushEvent (Event.log LogLevel.error) st

@[simp] lemma pushEvent_token (e : Event) (st : St) : (pushEvent e st).token = st.token := rfl

@[simp] lemma pushEvent_nLogin (e : Event) (st : St) : (pushEvent e st).nLogin = st.nLogin := rfl

@[simp] lemma pushEvent_nStatus (e : Event) (st : St) : (pushEvent e st).nStatus = st.nStatus := rfl

@[simp] lemma pushEvent_nCharging (e : Event) (st : St) : (pushEvent e st).nCharging = st.nCharging := rfl

@[simp] lemma pushEvent_nChargeMode (e : Event) (st : St) : (pushEvent e st).nChargeMode = st.nChargeMode := rfl

@[simp] lemma pushEvent_events (e : Event) (st : St) : (pushEvent e st).events = st.events ++ [e] := rfl

/-- `requests.post(_LoginURL, ...)`: records the request event, bumps
the login counter, and yields the scripted outcome (a transport error
becomes a raised `requests` exception). -/
def doLoginPost (env : Env) (body : String) (st : St) : Except PyErr Resp × St :=
  let st' := { st with nLogin := st.nLogin + 1,
                       events := st.events ++ [Event.postLogin body] }
  match env.login st.nLogin with
  | NetResult.err => (Except.error PyErr.requestError, st')
  | NetResult.ok r => (Except.ok r, st')

/-- `requests.post(_WallboxURL, ...)` with the current token in the
headers. -/
def doWallboxPost (env : Env) (tokenHdr : Json) (body : String) (st : St) :
    Except PyErr Resp × St :=
  let st' := { st with nStatus := st.nStatus + 1,
                       events := st.events ++ [Event.postWallbox tokenHdr body] }
  match env.status st.nStatus with
  | NetResult.err => (Except.error PyErr.requestError, st')
  | NetResult.ok r => (Except.ok r, st')

/-- `requests.post(_PowerControlURL, ...)`. -/
def doChargingPost (env : Env) (tokenHdr : Json) (body : Json) (st : St) :
    Except PyErr Resp × St :=
  let st' := { st with nCharging := st.nCharging + 1,
                       events := st.events ++ [Event.postCharging tokenHdr body] }
  match env.charging st.nCharging with
  | NetResult.err => (Except.error PyErr.requestError, st')
  | NetResult.ok r => (Except.ok r, st')

/-- `requests.post(_SetChargeModeURL, ...)`. -/
def doChargeModePost (env : Env) (tokenHdr : Json) (body : Json) (st : St) :
    Except PyErr Resp × St :=
  let st' := { st with nChargeMode := st.nChargeMode + 1,
                       events := st.events ++ [Event.postChargeMode tokenHdr body] }
  match env.chargeMode st.nChargeMode with
  | NetResult.err => (Except.error PyErr.requestError, st')
  | NetResult.ok r => (Except.ok r, st')

/-- `response.raise_for_status()`: raises `HTTPError` exactly for 4xx
and 5xx status codes. -/
def raise_for_status (r : Resp) : Except PyErr Unit :=
  if 400 ≤ r.status_code ∧ r.status_code < 600 then Except.error PyErr.httpError
  else Except.ok ()

/-- Body of `SemsApi.getLoginToken` (the code inside its `try`):
POST the credentials to the login endpoint, check the HTTP status,
decode the body, and build the token as `data` with the `api` field
merged in. -/
def getLoginTokenBody (env : Env) (userName password : String) (st : St) :
    Except PyErr Json × St :=
  let st := logDebug st
  let login_data :=
    "\x7b\"account\":\"" ++ userName ++ "\",\"pwd\":\"" ++ password ++ "\" \x7d"
  match doLoginPost env login_data st with
  | (Except.error e, st) => (Except.error e, st)
  | (Except.ok login_response, st) =>
    let st := logDebug st
    match raise_for_status login_response with
    | Except.error e => (Except.error e, st)
    | Except.ok _ =>
      match login_response.body with
      | none => (Except.error PyErr.jsonDecodeError, st)
      | some jsonResponse =>
        let st := logDebug st
        match jsonResponse.getKey "data" with
        | Except.error e => (Except.error e, st)
        | Except.ok tokenDict =>
          match jsonResponse.getKey "api" with
          | Except.error e => (Except.error e, st)
          | Except.ok api =>
            match tokenDict.setKey "api" api with
            | Except.error e => (Except.error e, st)
            | Except.ok tokenDict =>
              let st := logDebug st
              (Except.ok tokenDict, st)

/-- `SemsApi.getLoginToken`: the body above under a catch-all handler
that logs the exception and returns `None`. -/
def getLoginToken (env : Env) (userName password : String) (st : St) : Json × St :=
  match getLoginTokenBody env userName password st with
  | (Except.ok tokenDict, st) => (tokenDict, st)
  | (Except.error _, st) => (Json.null, logError st)

/-- `SemsApi.test_authentication`: stores `getLoginToken`'s result as
the current token and reports whether it is not `None`.  (The `except`
branch of the Python source is unreachable because `getLoginToken`
catches all of its own exceptions.) -/
def test_authentication (env : Env) (c : Creds) (st : St) : Bool × St :=
  let r := getLoginToken env c.username c.password st
  let st := { r.snd with token := r.fst }
  (!r.fst.isNull, st)

/-- The token-acquisition preamble shared verbatim by `getData`,
`change_status` and `set_charge_mode`: when no token is held or a
renewal is requested, fetch a token and store the result —
unconditionally — as `self._token`. -/
def tokenPreamble (env : Env) (c : Creds) (renewToken : Bool) (st : St) : St :=
  if st.token.isNull || renewToken then
    let r := getLoginToken env c.username c.password (logDebug st)
    { r.snd with token := r.fst }
  else st

mutual

/-- Body of `SemsApi.getData` (the code inside its `try`): fail with
`OutOfRetries` when the budget is spent, run the token preamble, POST
the status request, and on a soft failure (`msg != "success"` or a
`None` payload) recurse through the full `getData` wrapper with a
forced renewal and a decremented budget. -/
def getDataBody (env : Env) (c : Creds) (powerStationId : String)
    (renewToken : Bool) (maxTokenRetries : Int) (st : St) : Except PyErr Json × St :=
  let st := logDebug st
  if _h : maxTokenRetries ≤ 0 then
    (Except.error PyErr.outOfRetries, logInfo st)
  else
    let st := tokenPreamble env c renewToken st
    let st := logDebug st
    let data := "\x7b\"sn\":\"" ++ powerStationId ++ "\"\x7d"
    match doWallboxPost env st.token data st with
    | (Except.error e, st) => (Except.error e, st)
    | (Except.ok response, st) =>
      match response.body with
      | none => (Except.error PyErr.jsonDecodeError, st)
      | some jsonResponse =>
        match jsonResponse.getKey "msg" with
        | Except.error e => (Except.error e, st)
        | Except.ok msg =>
          match (if msg.eqStr "success" then
                   (jsonResponse.getKey "data").map Json.isNull
                 else Except.ok true) with
          | Except.error e => (Except.error e, st)
          | Except.ok true =>
            let r := getData env c powerStationId true (maxTokenRetries - 1) (logDebug st)
            (Except.ok r.fst, r.snd)
          | Except.ok false =>
            match jsonResponse.getKey "data" with
            | Except.error e => (Except.error e, st)
            | Except.ok d => (Except.ok d, st)
termination_by (maxTokenRetries.toNat, 0)
decreasing_by
  simp_wf
  apply Prod.Lex.left
  omega

/-- `SemsApi.getData`: the body above under a catch-all handler that
logs the exception and returns `None`. -/
def getData (env : Env) (c : Creds) (powerStationId : String)
    (renewToken : Bool) (maxTokenRetries : Int) (st : St) : Json × St :=
  match getDataBody env c powerStationId renewToken maxTokenRetries st with
  | (Except.ok v, st) => (v, st)
  | (Except.error _, st) => (Json.null, logError st)
termination_by (maxTokenRetries.toNat, 1)
decreasing_by
  apply Prod.Lex.right
  omega

end

/-- Python truthiness of the optional `chargePower` argument
(`if chargePower:`): `None` and `0` are falsy, any other number is
truthy. -/
def pyTruthy : Option Int → Bool
  | none => false
  | some n => n ≠ 0

/-- Body of `SemsApi.change_status` (the code inside its `try`):
budget check, token preamble, POST `{sn, status}` to the power-control
endpoint; a non-200 response is only logged.  The function returns
`None` on every path and never retries despite its log message. -/
def change_statusBody (env : Env) (c : Creds) (inverterSn : String) (status : Int)
    (renewToken : Bool) (maxTokenRetries : Int) (st : St) : Except PyErr Json × St :=
  let st := logDebug st
  if maxTokenRetries ≤ 0 then
    (Except.error PyErr.outOfRetries, logInfo st)
  else
    let st := tokenPreamble env c renewToken st
    let st := logDebug st
    let data := Json.obj [("sn", Json.str inverterSn), ("status", Json.str (toString status))]
    match doChargingPost env st.token data st with
    | (Except.error e, st) => (Except.error e, st)
    | (Except.ok response, st) =>
      if response.status_code ≠ 200 then (Except.ok Json.null, logWarn st)
      else (Except.ok Json.null, st)

/-- `SemsApi.change_status` (the spec's set_power_state): the body
above under a catch-all handler that logs the exception and returns
`None`. -/
def change_status (env : Env) (c : Creds) (inverterSn : String) (status : Int)
    (renewToken : Bool) (maxTokenRetries : Int) (st : St) : Json × St :=
  match change_statusBody env c inverterSn status renewToken maxTokenRetries st with
  | (Except.ok v, st) => (v, st)
  | (Except.error _, st) => (Json.null, logError st)

/-- Body of `SemsApi.set_charge_mode` (the code inside its `try`):
budget check, token preamble, then POST to the set-charge-mode
endpoint a body holding `sn` and `type`, plus `charge_power` exactly
when `chargePower` is truthy; a non-200 response is only logged.
Returns `None` on every path and never retries despite its log
message. -/
def set_charge_modeBody (env : Env) (c : Creds) (wallboxSn : String) (mode : String)
    (chargePower : Option Int) (renewToken : Bool) (maxTokenRetries : Int) (st : St) :
    Except PyErr Json × St :=
  let st := logDebug st
  if maxTokenRetries ≤ 0 then
    (Except.error PyErr.outOfRetries, logInfo st)
  else
    let st := tokenPreamble env c renewToken st
    let st := logDebug st
    let data :=
      if pyTruthy chargePower then
        Json.obj [("sn", Json.str wallboxSn), ("type", Json.str mode),
                  ("charge_power", Json.num (chargePower.getD 0))]
      else
        Json.obj [("sn", Json.str wallboxSn), ("type", Json.str mode)]
    match doChargeModePost env st.token data st with
    | (Except.error e, st) => (Except.error e, st)
    | (Except.ok response, st) =>
      if response.status_code ≠ 200 then (Except.ok Json.null, logDebug st)
      else (Except.ok Json.null, st)

/-- `SemsApi.set_charge_mode`: the body above under a catch-all
handler that logs the exception and returns `None`. -/
def set_charge_mode (env : Env) (c : Creds) (wallboxSn : String) (mode : String)
    (chargePower : Option Int) (renewToken : Bool) (maxTokenRetries : Int) (st : St) :
    Json × St :=
  match set_charge_modeBody env c wallboxSn mode chargePower renewToken maxTokenRetries st with
  | (Except.ok v, st) => (v, st)
  | (Except.error _, st) => (Json.null, logError st)

/-- The scripted outcome of a status POST is a response with a decoded
body whose `msg` is not the string `"success"`: the soft-failure shape
that makes `getData` retry. -/
def statusBad (r : NetResult) : Prop :=
  ∃ resp j m, r = NetResult.ok resp ∧ resp.body = some j ∧
    j.getKey "msg" = Except.ok m ∧ m.eqStr "success" = false

/-- The scripted outcome of a status POST is a response whose decoded
body reports `msg = "success"` and carries the non-null payload `d`. -/
def statusGood (r : NetResult) (d : Json) : Prop :=
  ∃ resp j, r = NetResult.ok resp ∧ resp.body = some j ∧
    j.getKey "msg" = Except.ok (Json.str "success") ∧
    j.getKey "data" = Except.ok d ∧ d.isNull = false

/-- The scripted outcome of a login POST makes `getLoginToken` fail:
a transport error, an HTTP 4xx/5xx status, an undecodable body, or a
decoded body on which extracting `data` and `api` and merging them
raises. -/
def loginFailing : NetResult → Prop
  | NetResult.err => True
  | NetResult.ok resp =>
      (400 ≤ resp.status_code ∧ resp.status_code < 600) ∨
      resp.body = none ∨
      ∃ j, resp.body = some j ∧
        ((∃ e, j.getKey "data" = Except.error e) ∨
         (∃ e, j.getKey "api" = Except.error e) ∨
         (∃ td api e, j.getKey "data" = Except.ok td ∧ j.getKey "api" = Except.ok api ∧
            td.setKey "api" api = Except.error e))

/-- The bodies of the set-charge-mode requests recorded in a trace, in
order. -/
def chargeModeBodies (evs : List Event) : List Json :=
  evs.filterMap (fun e =>
    match e with
    | Event.postChargeMode _ b => some b
    | _ => none)

/-- Number of status-endpoint requests recorded in a trace. -/
def wallboxPosts (evs : List Event) : Nat :=
  (evs.filterMap (fun e =>
    match e with
    | Event.postWallbox t b => some (t, b)
    | _ => none)).length

/-- Concrete inputs used by witnesses and counterexamples. -/
def exCreds : Creds := ⟨"user", "pass"⟩

def exPayload : Json := Json.obj [("power", Json.num 0)]

def exToken : Json := Json.obj [("uid", Json.str "u"), ("api", Json.str "https://eu.semsportal.com/api/")]

def stEmpty : St := ⟨Json.null, 0, 0, 0, 0, []⟩

def stWithToken : St := ⟨exToken, 0, 0, 0, 0, []⟩

def respLoginOk : NetResult :=
  NetResult.ok ⟨200, some (Json.obj
    [("data", Json.obj [("uid", Json.str "x")]),
     ("api", Json.str "https://eu.semsportal.com/api/")])⟩

def respBadMsg : NetResult := NetResult.ok ⟨200, some (Json.obj [("msg", Json.str "fail")])⟩

def respGood : NetResult :=
  NetResult.ok ⟨200, some (Json.obj [("msg", Json.str "success"), ("data", exPayload)])⟩

def envAllErr : Env :=
  ⟨fun _ => NetResult.err, fun _ => NetResult.err, fun _ => NetResult.err, fun _ => NetResult.err⟩

def envBadStatus : Env :=
  ⟨fun _ => respLoginOk, fun _ => respBadMsg, fun _ => NetResult.err, fun _ => NetResult.err⟩

def envGoodStatus : Env :=
  ⟨fun _ => respLoginOk, fun _ => respGood, fun _ => NetResult.err, fun _ => NetResult.err⟩

def envLoginErrGoodStatus : Env :=
  ⟨fun _ => NetResult.err, fun _ => respGood, fun _ => NetResult.err, fun _ => NetResult.err⟩

@[simp] lemma logDebug_token (st : St) : (logDebug st).token = st.token := rfl

@[simp] lemma logDebug_nLogin (st : St) : (logDebug st).nLogin = st.nLogin := rfl

@[simp] lemma logDebug_nStatus (st : St) : (logDebug st).nStatus = st.nStatus := rfl

@[simp] lemma logDebug_nCharging (st : St) : (logDebug st).nCharging = st.nCharging := rfl

@[simp] lemma logDebug_nChargeMode (st : St) : (logDebug st).nChargeMode = st.nChargeMode := rfl

@[simp] lemma logDebug_events (st : St) :
    (logDebug st).events = st.events ++ [Event.log LogLevel.debug] := rfl

/-! Frame lemmas: `getLoginToken` performs exactly one login POST,
touches no other counter, never writes the stored token, and records
no wallbox or set-charge-mode request. -/

lemma getLoginTokenBody_frame (env : Env) (u p : String) (st : St) :
    ((getLoginTokenBody env u p st).snd).nLogin = st.nLogin + 1 ∧
    ((getLoginTokenBody env u p st).snd).nStatus = st.nStatus ∧
    ((getLoginTokenBody env u p st).snd).nCharging = st.nCharging ∧
    ((getLoginTokenBody env u p st).snd).nChargeMode = st.nChargeMode ∧
    ((getLoginTokenBody env u p st).snd).token = st.token ∧
    chargeModeBodies ((getLoginTokenBody env u p st).snd).events = chargeModeBodies st.events := by
  unfold getLoginTokenBody doLoginPost
  cases hl : env.login st.nLogin <;>
    simp only [hl, logDebug, logError, pushEvent] <;>
    repeat' split
  all_goals simp_all [chargeModeBodies]

lemma getLoginToken_frame (env : Env) (u p : String) (st : St) :
    ((getLoginToken env u p st).snd).nLogin = st.nLogin + 1 ∧
    ((getLoginToken env u p st).snd).nStatus = st.nStatus ∧
    ((getLoginToken env u p st).snd).nCharging = st.nCharging ∧
    ((getLoginToken env u p st).snd).nChargeMode = st.nChargeMode ∧
    ((getLoginToken env u p st).snd).token = st.token ∧
    chargeModeBodies ((getLoginToken env u p st).snd).events = chargeModeBodies st.events := by
  have h := getLoginTokenBody_frame env u p st
  unfold getLoginToken
  rcases hb : getLoginTokenBody env u p st with ⟨res, st'⟩
  rw [hb] at h
  cases res <;> simp_all [logError, pushEvent, chargeModeBodies]

/-! Frame lemmas for the shared token-acquisition preamble. -/

lemma tokenPreamble_frame (env : Env) (c : Creds) (b : Bool) (st : St) :
    (tokenPreamble env c b st).nStatus = st.nStatus ∧
    (tokenPreamble env c b st).nCharging = st.nCharging ∧
    (tokenPreamble env c b st).nChargeMode = st.nChargeMode ∧
    chargeModeBodies (tokenPreamble env c b st).events = chargeModeBodies st.events := by
  unfold tokenPreamble
  split
  · have h := getLoginToken_frame env c.username c.password (logDebug st)
    simp_all [logDebug, pushEvent, chargeModeBodies, List.filterMap_append]
  · simp

lemma tokenPreamble_nLogin_true (env : Env) (c : Creds) (b : Bool) (st : St)
    (h : (st.token.isNull || b) = true) :
    (tokenPreamble env c b st).nLogin = st.nLogin + 1 := by
  have hg := getLoginToken_frame env c.username c.password (logDebug st)
  unfold tokenPreamble
  simp_all [logDebug, pushEvent]

lemma tokenPreamble_skip (env : Env) (c : Creds) (b : Bool) (st : St)
    (h : (st.token.isNull || b) = false) :
    tokenPreamble env c b st = st := by
  unfold tokenPreamble
  simp [h]

lemma tokenPreamble_token_overwrite (env : Env) (c : Creds) (b : Bool) (st : St)
    (h : (st.token.isNull || b) = true) :
    (tokenPreamble env c b st).token =
      (getLoginToken env c.username c.password (logDebug st)).fst := by
  unfold tokenPreamble
  simp [h]

/-- With a spent budget, `getData` raises `OutOfRetries` internally
and its handler turns that into a logged `None`; nothing else
happens. -/
lemma getData_base (env : Env) (c : Creds) (sn : String) (renew : Bool)
    (r : Int) (st : St) (h : r ≤ 0) :
    getDataBody env c sn renew r st =
      (Except.error PyErr.outOfRetries,
       { st with events := st.events ++ [Event.log LogLevel.debug, Event.log LogLevel.info] }) ∧
    getData env c sn renew r st =
      (Json.null,
       { st with events := st.events ++
           [Event.log LogLevel.debug, Event.log LogLevel.info, Event.log LogLevel.error] }) := by
  constructor <;>
    simp [getData, getDataBody, logDebug, logInfo, logError, pushEvent, h, List.append_assoc]

/-- One successful step: with budget left and a scripted success on
the next status POST, `getData` returns that payload right after the
POST. -/
lemma getData_step_good (env : Env) (c : Creds) (sn : String) (renew : Bool)
    (r : Int) (st : St) (d : Json) (hr : 0 < r)
    (hgood : statusGood (env.status ((tokenPreamble env c renew (logDebug st)).nStatus)) d) :
    getData env c sn renew r st =
      (d, { tokenPreamble env c renew (logDebug st) with
              nStatus := (tokenPreamble env c renew (logDebug st)).nStatus + 1,
              events := (tokenPreamble env c renew (logDebug st)).events ++
                [Event.log LogLevel.debug,
                 Event.postWallbox (tokenPreamble env c renew (logDebug st)).token
                   ("\x7b\"sn\":\"" ++ sn ++ "\"\x7d")] }) := by
  obtain ⟨resp, j, hrEq, hbody, hmsg, hdata, hnn⟩ := hgood
  conv_lhs => rw [getData, getDataBody]
  rw [dif_neg (by omega : ¬ r ≤ 0)]
  simp only [doWallboxPost, logDebug_token, logDebug_nLogin, logDebug_nStatus,
             logDebug_nCharging, logDebug_nChargeMode, logDebug_events,
             hrEq, hbody, hmsg, hdata, hnn, Json.eqStr, Except.map,
             List.append_assoc, List.cons_append, List.nil_append]
  simp [List.append_assoc]

/-- One failing step: with budget left and a scripted soft failure on
the next status POST, `getData` recurses with a forced renewal and a
decremented budget, from the state reached after that POST. -/
lemma getData_step_bad (env : Env) (c : Creds) (sn : String) (renew : Bool)
    (r : Int) (st : St) (hr : 0 < r)
    (hbad : statusBad (env.status ((tokenPreamble env c renew (logDebug st)).nStatus))) :
    getData env c sn renew r st =
      getData env c sn true (r - 1)
        (logDebug { tokenPreamble env c renew (logDebug st) with
           nStatus := (tokenPreamble env c renew (logDebug st)).nStatus + 1,
           events := (tokenPreamble env c renew (logDebug st)).events ++
             [Event.log LogLevel.debug,
              Event.postWallbox (tokenPreamble env c renew (logDebug st)).token
                ("\x7b\"sn\":\"" ++ sn ++ "\"\x7d")] }) := by
  obtain ⟨resp, j, m, hrEq, hbody, hmsg, hne⟩ := hbad
  conv_lhs => rw [getData, getDataBody]
  rw [dif_neg (by omega : ¬ r ≤ 0)]
  simp only [doWallboxPost, logDebug_token, logDebug_nLogin, logDebug_nStatus,
             logDebug_nCharging, logDebug_nChargeMode, logDebug_events,
             hrEq, hbody, hmsg, hne,
             List.append_assoc, List.cons_append, List.nil_append]
  simp [hne, List.append_assoc]

/-- When every scripted status outcome is a soft failure, a run with
budget `n` performs exactly `n` status POSTs and `n` logins (`n - 1`
when a token is already held and no renewal was forced), and the
caller receives `None`. -/
lemma getData_allBad (env : Env) (c : Creds) (sn : String)
    (hbad : ∀ i, statusBad (env.status i)) :
    ∀ (n : Nat) (renew : Bool) (st : St),
      (getData env c sn renew (n : Int) st).fst = Json.null ∧
      ((getData env c sn renew (n : Int) st).snd).nStatus = st.nStatus + n ∧
      ((getData env c sn renew (n : Int) st).snd).nLogin =
        st.nLogin + (if st.token.isNull || renew then n else n - 1) := by
  intro n
  induction n with
  | zero =>
    intro renew st
    have h := (getData_base env c sn renew ((0 : Nat) : Int) st (by omega)).2
    rw [h]
    simp
  | succ m ih =>
    intro renew st
    have hstep := getData_step_bad env c sn renew ((m + 1 : Nat) : Int) st
      (by omega) (hbad _)
    have hcast : ((m + 1 : ℕ) : ℤ) - 1 = (m : ℤ) := by push_cast; ring
    rw [hstep, hcast]
    obtain ⟨ih1, ih2, ih3⟩ := ih true
      (logDebug { tokenPreamble env c renew (logDebug st) with
         nStatus := (tokenPreamble env c renew (logDebug st)).nStatus + 1,
         events := (tokenPreamble env c renew (logDebug st)).events ++
           [Event.log LogLevel.debug,
            Event.postWallbox (tokenPreamble env c renew (logDebug st)).token
              ("\x7b\"sn\":\"" ++ sn ++ "\"\x7d")] })
    have hPn : (tokenPreamble env c renew (logDebug st)).nStatus = st.nStatus := by
      have := (tokenPreamble_frame env c renew (logDebug st)).1
      simpa using this
    refine ⟨ih1, ?_, ?_⟩
    · rw [ih2]
      simp [hPn]
      omega
    · rw [ih3]
      simp only [logDebug_nLogin, Bool.or_true, if_pos]
      by_cases hc : (st.token.isNull || renew) = true
      · have hPl := tokenPreamble_nLogin_true env c renew (logDebug st) (by simpa using hc)
        simp only [logDebug_nLogin] at hPl
        simp [hc, hPl]
        omega
      · have hskip := tokenPreamble_skip env c renew (logDebug st)
          (by simpa using (Bool.not_eq_true _).mp hc)
        rw [hskip]
        simp only [logDebug_nLogin]
        simp [hc]

/-- When the scripted status outcomes are soft failures for the first
`n` attempts and a success with payload `d` on attempt `n + 1`, a run
with budget above `n` returns `d` after exactly `n + 1` status POSTs,
with `n + 1` logins (`n` when a token was already held and no renewal
forced) and no other network call. -/
lemma getData_goodAt (env : Env) (c : Creds) (sn : String) :
    ∀ (n : Nat) (B : Int) (renew : Bool) (st : St) (d : Json),
      (n : Int) < B →
      (∀ i, i < n → statusBad (env.status (st.nStatus + i))) →
      statusGood (env.status (st.nStatus + n)) d →
      (getData env c sn renew B st).fst = d ∧
      ((getData env c sn renew B st).snd).nStatus = st.nStatus + n + 1 ∧
      ((getData env c sn renew B st).snd).nLogin =
        st.nLogin + (if st.token.isNull || renew then n + 1 else n) ∧
      ((getData env c sn renew B st).snd).nCharging = st.nCharging ∧
      ((getData env c sn renew B st).snd).nChargeMode = st.nChargeMode := by
  intro n
  induction n with
  | zero =>
    intro B renew st d hB _hbefore hNth
    have hPn : (tokenPreamble env c renew (logDebug st)).nStatus = st.nStatus := by
      have := (tokenPreamble_frame env c renew (logDebug st)).1
      simpa using this
    have hstep := getData_step_good env c sn renew B st d (by omega)
      (by rw [hPn]; simpa using hNth)
    rw [hstep]
    have hPc : (tokenPreamble env c renew (logDebug st)).nCharging = st.nCharging := by
      have := (tokenPreamble_frame env c renew (logDebug st)).2.1
      simpa using this
    have hPm : (tokenPreamble env c renew (logDebug st)).nChargeMode = st.nChargeMode := by
      have := (tokenPreamble_frame env c renew (logDebug st)).2.2.1
      simpa using this
    refine ⟨rfl, by simp [hPn], ?_, by simp [hPc], by simp [hPm]⟩
    by_cases hc : (st.token.isNull || renew) = true
    · have hPl := tokenPreamble_nLogin_true env c renew (logDebug st) (by simpa using hc)
      simp only [logDebug_nLogin] at hPl
      simp [hc, hPl]
    · have hskip := tokenPreamble_skip env c renew (logDebug st)
        (by simpa using (Bool.not_eq_true _).mp hc)
      rw [hskip]
      simp [hc]
  | succ m ih =>
    intro B renew st d hB hbefore hNth
    have hPn : (tokenPreamble env c renew (logDebug st)).nStatus = st.nStatus := by
      have := (tokenPreamble_frame env c renew (logDebug st)).1
      simpa using this
    have hstep := getData_step_bad env c sn renew B st (by omega)
      (by rw [hPn]; simpa using hbefore 0 (by omega))
    rw [hstep]
    obtain ⟨ih1, ih2, ih3, ih4, ih5⟩ := ih (B - 1) true
      (logDebug { tokenPreamble env c renew (logDebug st) with
         nStatus := (tokenPreamble env c renew (logDebug st)).nStatus + 1,
         events := (tokenPreamble env c renew (logDebug st)).events ++
           [Event.log LogLevel.debug,
            Event.postWallbox (tokenPreamble env c renew (logDebug st)).token
              ("\x7b\"sn\":\"" ++ sn ++ "\"\x7d")] }) d
      (by omega)
      (by
        intro i hi
        simp only [logDebug_nStatus, hPn]
        have h2 := hbefore (i + 1) (by omega)
        have harith : st.nStatus + (i + 1) = st.nStatus + 1 + i := by omega
        rw [harith] at h2
        simpa using h2)
      (by
        simp only [logDebug_nStatus, hPn]
        have harith : st.nStatus + (m + 1) = st.nStatus + 1 + m := by omega
        rw [harith] at hNth
        simpa using hNth)
    have hPc : (tokenPreamble env c renew (logDebug st)).nCharging = st.nCharging := by
      have := (tokenPreamble_frame env c renew (logDebug st)).2.1
      simpa using this
    have hPm : (tokenPreamble env c renew (logDebug st)).nChargeMode = st.nChargeMode := by
      have := (tokenPreamble_frame env c renew (logDebug st)).2.2.1
      simpa using this
    refine ⟨ih1, ?_, ?_, ?_, ?_⟩
    · rw [ih2]
      simp [hPn]
      omega
    · rw [ih3]
      simp only [logDebug_nLogin, Bool.or_true, if_pos]
      by_cases hc : (st.token.isNull || renew) = true
      · have hPl := tokenPreamble_nLogin_true env c renew (logDebug st) (by simpa using hc)
        simp only [logDebug_nLogin] at hPl
        simp [hc, hPl]
        omega
      · have hskip := tokenPreamble_skip env c renew (logDebug st)
          (by simpa using (Bool.not_eq_true _).mp hc)
        rw [hskip]
        simp only [logDebug_nLogin]
        simp [hc]
    · rw [ih4]
      simp [hPc]
    · rw [ih5]
      simp [hPm]

/-- Any failing scripted login outcome makes `getLoginToken`'s body
raise. -/
lemma getLoginTokenBody_fail (env : Env) (u p : String) (st : St)
    (h : loginFailing (env.login st.nLogin)) :
    ∃ e, (getLoginTokenBody env u p st).fst = Except.error e := by
  unfold getLoginTokenBody doLoginPost
  cases hl : env.login st.nLogin with
  | err => simp [hl, logDebug, pushEvent]
  | ok resp =>
    rw [hl] at h
    simp only [loginFailing] at h
    simp only [hl, logDebug, pushEvent]
    rcases h with ⟨h1, h2⟩ | hbody | ⟨j, hbody, hkeys⟩
    · simp only [raise_for_status, if_pos (And.intro h1 h2)]
      exact ⟨_, rfl⟩
    · cases hrs : raise_for_status resp with
      | error e1 => simp [hrs]
      | ok a => simp [hrs, hbody]
    · rcases hkeys with ⟨e, he⟩ | ⟨e, he⟩ | ⟨td, api, e2, htd, hapi, hset⟩
      · cases hrs : raise_for_status resp with
        | error e1 => simp [hrs]
        | ok a => simp [hrs, hbody, he]
      · cases hrs : raise_for_status resp with
        | error e1 => simp [hrs]
        | ok a =>
          cases htd : j.getKey "data" with
          | error e1 => simp [hrs, hbody, htd]
          | ok td => simp [hrs, hbody, htd, he]
      · cases hrs : raise_for_status resp with
        | error e1 => simp [hrs]
        | ok a => simp [hrs, hbody, htd, hapi, hset]

/-- Any failing scripted login outcome makes `getLoginToken` return
`None`. -/
lemma getLoginToken_fail (env : Env) (u p : String) (st : St)
    (h : loginFailing (env.login st.nLogin)) :
    (getLoginToken env u p st).fst = Json.null := by
  obtain ⟨e, hfst⟩ := getLoginTokenBody_fail env u p st h
  unfold getLoginToken
  rcases hb : getLoginTokenBody env u p st with ⟨res, st'⟩
  rw [hb] at hfst
  simp only at hfst
  subst hfst
  simp

/-- `change_status`'s body either raises (`OutOfRetries`, a transport
error) or returns `None`. -/
lemma change_statusBody_fst (env : Env) (c : Creds) (sn : String) (status : Int)
    (renew : Bool) (r : Int) (st : St) :
    (change_statusBody env c sn status renew r st).fst = Except.error PyErr.outOfRetries ∨
    (change_statusBody env c sn status renew r st).fst = Except.error PyErr.requestError ∨
    (change_statusBody env c sn status renew r st).fst = Except.ok Json.null := by
  unfold change_statusBody doChargingPost
  by_cases hr : r ≤ 0
  · simp [hr]
  · rw [if_neg hr]
    simp only [logDebug_nCharging, logDebug_token, logDebug_events]
    cases hcm : env.charging ((tokenPreamble env c renew (logDebug st)).nCharging) <;>
      simp [hcm]
    split <;> simp

/-- `change_status` returns `None` on every input. -/
lemma change_status_returns_null (env : Env) (c : Creds) (sn : String) (status : Int)
    (renew : Bool) (r : Int) (st : St) :
    (change_status env c sn status renew r st).fst = Json.null := by
  have h := change_statusBody_fst env c sn status renew r st
  unfold change_status
  rcases hb : change_statusBody env c sn status renew r st with ⟨res, st'⟩
  rw [hb] at h
  simp only at h
  rcases h with h | h | h <;> subst h <;> simp

/-- A transport failure on the power-control POST raises inside
`change_status`'s body. -/
lemma change_statusBody_transport (env : Env) (c : Creds) (sn : String) (status : Int)
    (renew : Bool) (r : Int) (st : St) (hr : 0 < r)
    (hcm : env.charging st.nCharging = NetResult.err) :
    ∃ st', change_statusBody env c sn status renew r st =
      (Except.error PyErr.requestError, st') := by
  unfold change_statusBody doChargingPost
  rw [if_neg (by omega : ¬ r ≤ 0)]
  have hPc : (tokenPreamble env c renew (logDebug st)).nCharging = st.nCharging := by
    have := (tokenPreamble_frame env c renew (logDebug st)).2.1
    simpa using this
  simp only [logDebug_nCharging, logDebug_token, logDebug_events, hPc, hcm]
  exact ⟨_, rfl⟩

/-- The catch-all handler of `change_status` turns a raising body into
a logged `None`. -/
lemma change_status_err (env : Env) (c : Creds) (sn : String) (status : Int)
    (renew : Bool) (r : Int) (st : St) (e : PyErr) (st' : St)
    (h : change_statusBody env c sn status renew r st = (Except.error e, st')) :
    change_status env c sn status renew r st = (Json.null, logError st') := by
  unfold change_status
  rw [h]

/-- `set_charge_mode`'s body either raises (`OutOfRetries`, a
transport error) or returns `None`. -/
lemma set_charge_modeBody_fst (env : Env) (c : Creds) (sn mode : String)
    (cp : Option Int) (renew : Bool) (r : Int) (st : St) :
    (set_charge_modeBody env c sn mode cp renew r st).fst = Except.error PyErr.outOfRetries ∨
    (set_charge_modeBody env c sn mode cp renew r st).fst = Except.error PyErr.requestError ∨
    (set_charge_modeBody env c sn mode cp renew r st).fst = Except.ok Json.null := by
  unfold set_charge_modeBody doChargeModePost
  by_cases hr : r ≤ 0
  · simp [hr]
  · rw [if_neg hr]
    simp only [logDebug_nChargeMode, logDebug_token, logDebug_events]
    cases hcm : env.chargeMode ((tokenPreamble env c renew (logDebug st)).nChargeMode) <;>
      simp [hcm]
    split <;> simp

/-- `set_charge_mode` returns `None` on every input. -/
lemma set_charge_mode_returns_null (env : Env) (c : Creds) (sn mode : String)
    (cp : Option Int) (renew : Bool) (r : Int) (st : St) :
    (set_charge_mode env c sn mode cp renew r st).fst = Json.null := by
  have h := set_charge_modeBody_fst env c sn mode cp renew r st
  unfold set_charge_mode
  rcases hb : set_charge_modeBody env c sn mode cp renew r st with ⟨res, st'⟩
  rw [hb] at h
  simp only at h
  rcases h with h | h | h <;> subst h <;> simp

/-- A transport failure on the set-charge-mode POST raises inside
`set_charge_mode`'s body. -/
lemma set_charge_modeBody_transport (env : Env) (c : Creds) (sn mode : String)
    (cp : Option Int) (renew : Bool) (r : Int) (st : St) (hr : 0 < r)
    (hcm : env.chargeMode st.nChargeMode = NetResult.err) :
    ∃ st', set_charge_modeBody env c sn mode cp renew r st =
      (Except.error PyErr.requestError, st') := by
  unfold set_charge_modeBody doChargeModePost
  rw [if_neg (by omega : ¬ r ≤ 0)]
  have hPm : (tokenPreamble env c renew (logDebug st)).nChargeMode = st.nChargeMode := by
    have := (tokenPreamble_frame env c renew (logDebug st)).2.2.1
    simpa using this
  simp only [logDebug_nChargeMode, logDebug_token, logDebug_events, hPm, hcm]
  exact ⟨_, rfl⟩

/-- The catch-all handler of `set_charge_mode` turns a raising body
into a logged `None`. -/
lemma set_charge_mode_err (env : Env) (c : Creds) (sn mode : String)
    (cp : Option Int) (renew : Bool) (r : Int) (st : St) (e : PyErr) (st' : St)
    (h : set_charge_modeBody env c sn mode cp renew r st = (Except.error e, st')) :
    set_charge_mode env c sn mode cp renew r st = (Json.null, logError st') := by
  unfold set_charge_mode
  rw [h]

/-- With budget left, one set-charge-mode POST is recorded, whose body
carries `sn` and `type` plus `charge_power` exactly when `chargePower`
is truthy. -/
lemma set_charge_mode_bodies (env : Env) (c : Creds) (sn mode : String)
    (cp : Option Int) (renew : Bool) (r : Int) (st : St) (hr : 0 < r) :
    chargeModeBodies (((set_charge_mode env c sn mode cp renew r st).snd).events) =
      chargeModeBodies st.events ++
        [if pyTruthy cp then
           Json.obj [("sn", Json.str sn), ("type", Json.str mode),
                     ("charge_power", Json.num (cp.getD 0))]
         else Json.obj [("sn", Json.str sn), ("type", Json.str mode)]] := by
  unfold set_charge_mode set_charge_modeBody doChargeModePost
  rw [if_neg (by omega : ¬ r ≤ 0)]
  have hP : chargeModeBodies (tokenPreamble env c renew (logDebug st)).events =
      chargeModeBodies st.events := by
    have h1 := (tokenPreamble_frame env c renew (logDebug st)).2.2.2
    rw [h1]
    simp [chargeModeBodies, List.filterMap_append]
  simp only [logDebug_nChargeMode, logDebug_token, logDebug_events]
  cases hcm : env.chargeMode ((tokenPreamble env c renew (logDebug st)).nChargeMode) with
  | err =>
    simp only [hcm]
    simp only [chargeModeBodies, List.filterMap_append] at hP ⊢
    simp [logError, pushEvent, List.filterMap_append, hP]
  | ok resp =>
    by_cases hsc : resp.status_code = 200 <;>
      · simp only [hcm, hsc]
        simp only [chargeModeBodies, List.filterMap_append] at hP ⊢
        simp [logDebug_events, logError, logWarn, pushEvent, List.filterMap_append, hP, hsc]

/-- C1 (amended): with a non-positive retry budget `getData` performs
no network call — no counter moves, the trace gains only log records —
and raises `OutOfRetries` internally, but its own catch-all handler
swallows it, so the caller receives a plain `None` rather than a
propagated distinct failure. -/
theorem C1_theorem (env : Env) (c : Creds) (sn : String) (renew : Bool)
    (r : Int) (st : St) (h : r ≤ 0) :
    getDataBody env c sn renew r st =
      (Except.error PyErr.outOfRetries,
       { st with events := st.events ++ [Event.log LogLevel.debug, Event.log LogLevel.info] }) ∧
    getData env c sn renew r st =
      (Json.null,
       { st with events := st.events ++
           [Event.log LogLevel.debug, Event.log LogLevel.info, Event.log LogLevel.error] }) := by
  constructor <;>
    simp [getData, getDataBody, logDebug, logInfo, logError, pushEvent, h, List.append_assoc]

/-- C1 witness: the amended statement at a concrete input. -/
theorem C1_witness :
    getData envAllErr exCreds "serial" false 0 stEmpty =
      (Json.null,
       { stEmpty with events :=
           [Event.log LogLevel.debug, Event.log LogLevel.info, Event.log LogLevel.error] }) := by
  have h := C1_theorem envAllErr exCreds "serial" false 0 stEmpty (by decide)
  simpa [stEmpty] using h.2

/-- C1 counterexample: at retry budget 0 the caller of `getData`
receives a normal `None` return, not a propagated `OutOfRetries`; the
same `None` is what a pure transport failure (budget 20) produces, so
the signal is not distinct. -/
theorem C1_counterexample :
    getData envAllErr exCreds "sn" false 0 stEmpty =
      (Json.null,
       { stEmpty with events :=
           [Event.log LogLevel.debug, Event.log LogLevel.info, Event.log LogLevel.error] }) ∧
    (getData envAllErr exCreds "sn" false 20 stEmpty).fst = Json.null := by
  constructor
  · simp [getData, getDataBody, logDebug, logInfo, logError, pushEvent, stEmpty]
  · simp [getData, getDataBody, tokenPreamble, getLoginToken, getLoginTokenBody,
          doLoginPost, doWallboxPost, envAllErr, stEmpty, exCreds,
          logDebug, logInfo, logError, pushEvent, Json.isNull]

/-- C8: every exception raised inside `getData`'s body — including the
`OutOfRetries` it raises itself when the budget is exhausted — is
caught by the catch-all handler, logged, and converted into a returned
`None`.  (`getData`'s return type is exception-free: nothing
propagates.) -/
theorem C8_theorem (env : Env) (c : Creds) (sn : String) (renew : Bool)
    (r : Int) (st : St) (e : PyErr) (st' : St)
    (h : getDataBody env c sn renew r st = (Except.error e, st')) :
    getData env c sn renew r st = (Json.null, logError st') := by
  unfold getData
  rw [h]

/-- C8 witness: the handler converts the `OutOfRetries` raised at
budget 0 into a logged `None`. -/
theorem C8_witness :
    getData envAllErr exCreds "sn" true 0 stEmpty =
      (Json.null,
       logError { stEmpty with events := [Event.log LogLevel.debug, Event.log LogLevel.info] }) := by
  apply C8_theorem envAllErr exCreds "sn" true 0 stEmpty PyErr.outOfRetries
  simp [getDataBody, stEmpty, logDebug, logInfo, pushEvent]

/-- C9: `test_authentication` is not side-effect-free: it stores
`getLoginToken`'s result as the client token on every call, reports
success exactly when that result is not `None`, and on a failing login
resets the stored token to `None`, discarding whatever was held. -/
theorem C9_theorem (env : Env) (c : Creds) (st : St) :
    (((test_authentication env c st).snd).token =
       (getLoginToken env c.username c.password st).fst ∧
     (test_authentication env c st).fst =
       !((getLoginToken env c.username c.password st).fst).isNull) ∧
    (loginFailing (env.login st.nLogin) →
       ((test_authentication env c st).snd).token = Json.null ∧
       (test_authentication env c st).fst = false) := by
  refine ⟨⟨?_, ?_⟩, ?_⟩
  · unfold test_authentication
    simp
  · unfold test_authentication
    simp
  · intro hfail
    have hnull := getLoginToken_fail env c.username c.password st hfail
    unfold test_authentication
    simp [hnull, Json.isNull]

/-- C9 witness: with a dead network and a previously stored valid
token, a failed check leaves the client holding `None`. -/
theorem C9_witness :
    ((test_authentication envAllErr exCreds stWithToken).snd).token = Json.null ∧
    (test_authentication envAllErr exCreds stWithToken).fst = false := by
  exact (C9_theorem envAllErr exCreds stWithToken).2 trivial

/-- C2 (amended): with a positive budget `N` and soft failure on
every status attempt, `getData` performs exactly `N` status POSTs and
exactly `N` re-authentications when no token is held initially or a
renewal is forced (`N - 1` otherwise, the first attempt reusing the
held token), and then returns `None` — the `OutOfRetries` raised when
the budget runs out is caught and logged by `getData` itself. -/
theorem C2_theorem (env : Env) (c : Creds) (sn : String) (N : Nat) (renew : Bool)
    (st : St) (_hN : 0 < N) (hbad : ∀ i, statusBad (env.status i)) :
    (getData env c sn renew (N : Int) st).fst = Json.null ∧
    ((getData env c sn renew (N : Int) st).snd).nStatus = st.nStatus + N ∧
    ((getData env c sn renew (N : Int) st).snd).nLogin =
      st.nLogin + (if st.token.isNull || renew then N else N - 1) :=
  getData_allBad env c sn hbad N renew st

/-- C2 witness: budget 2, no token held — two status POSTs, two
logins, `None` returned. -/
theorem C2_witness :
    (getData envBadStatus exCreds "sn" false ((2 : Nat) : Int) stEmpty).fst = Json.null ∧
    ((getData envBadStatus exCreds "sn" false ((2 : Nat) : Int) stEmpty).snd).nStatus =
      stEmpty.nStatus + 2 ∧
    ((getData envBadStatus exCreds "sn" false ((2 : Nat) : Int) stEmpty).snd).nLogin =
      stEmpty.nLogin + (if stEmpty.token.isNull || false then 2 else 2 - 1) := by
  apply C2_theorem envBadStatus exCreds "sn" 2 false stEmpty (by decide)
  intro i
  exact ⟨⟨200, some (Json.obj [("msg", Json.str "fail")])⟩,
         Json.obj [("msg", Json.str "fail")], Json.str "fail", rfl, rfl, rfl, by decide⟩

/-- C2 counterexample: with a held token, budget 2 and soft failures
throughout, `getData` performs only one re-authentication (not one per
attempt) and ends in a normal `None` return instead of a propagated
`OutOfRetries`. -/
theorem C2_counterexample :
    (getData envBadStatus exCreds "sn" false 2 stWithToken).fst = Json.null ∧
    ((getData envBadStatus exCreds "sn" false 2 stWithToken).snd).nLogin = 1 ∧
    ((getData envBadStatus exCreds "sn" false 2 stWithToken).snd).nStatus = 2 := by
  refine ⟨?_, ?_, ?_⟩ <;>
    simp [getData, getDataBody, tokenPreamble, getLoginToken, getLoginTokenBody,
          doLoginPost, doWallboxPost, raise_for_status, envBadStatus, respBadMsg,
          respLoginOk, stWithToken, exToken, exCreds, logDebug, logInfo, logError,
          pushEvent, Json.isNull, Json.eqStr, Json.getKey, Json.setKey, findField,
          setField]

/-- C3 (amended): on a transport failure, an HTTP 4xx/5xx, an
undecodable body, or missing `data`/`api` fields, `getLoginToken` logs
the exception and returns `None` — no exception reaches its caller —
and the stored token is untouched. -/
theorem C3_theorem (env : Env) (u p : String) (st : St)
    (h : loginFailing (env.login st.nLogin)) :
    (getLoginToken env u p st).fst = Json.null ∧
    ((getLoginToken env u p st).snd).token = st.token :=
  ⟨getLoginToken_fail env u p st h, (getLoginToken_frame env u p st).2.2.2.2.1⟩

/-- C3 witness: a transport failure at login yields `None` with the
stored token untouched. -/
theorem C3_witness :
    (getLoginToken envAllErr "user" "pass" stWithToken).fst = Json.null ∧
    ((getLoginToken envAllErr "user" "pass" stWithToken).snd).token = stWithToken.token :=
  C3_theorem envAllErr "user" "pass" stWithToken trivial

/-- C3 counterexample: a transport failure makes `getLoginToken`'s body
raise, but the function itself completes normally, handing its caller
the value `None` — it does not fail with a propagated `AuthError`. -/
theorem C3_counterexample :
    (getLoginTokenBody envAllErr "user" "pass" stWithToken).fst =
      Except.error PyErr.requestError ∧
    getLoginToken envAllErr "user" "pass" stWithToken =
      (Json.null,
       { stWithToken with
           nLogin := 1,
           events := [Event.log LogLevel.debug,
                      Event.postLogin "\x7b\"account\":\"user\",\"pwd\":\"pass\" \x7d",
                      Event.log LogLevel.error] }) := by
  constructor <;>
    simp [getLoginToken, getLoginTokenBody, doLoginPost, envAllErr, stWithToken,
          logDebug, logError, pushEvent]

/-- C4 (amended): when no token is held, `getData` calls
`getLoginToken` and stores its result — `None` on failure — as the
current token, then still issues the status request with that token;
an authentication failure does not propagate to the caller and does
not stop the call. -/
theorem C4_theorem (env : Env) (c : Creds) (sn : String) (r : Int) (st : St) (d : Json)
    (hr : 0 < r) (htok : st.token.isNull = true)
    (hlogin : loginFailing (env.login st.nLogin))
    (hgood : statusGood (env.status st.nStatus) d) :
    (getData env c sn false r st).fst = d ∧
    ((getData env c sn false r st).snd).nLogin = st.nLogin + 1 ∧
    ((getData env c sn false r st).snd).nStatus = st.nStatus + 1 ∧
    ((getData env c sn false r st).snd).token = Json.null := by
  have hcond : ((logDebug st).token.isNull || false) = true := by simp [htok]
  have hPtok : (tokenPreamble env c false (logDebug st)).token = Json.null := by
    rw [tokenPreamble_token_overwrite env c false (logDebug st) hcond]
    apply getLoginToken_fail
    simpa using hlogin
  have hPn : (tokenPreamble env c false (logDebug st)).nStatus = st.nStatus := by
    have := (tokenPreamble_frame env c false (logDebug st)).1
    simpa using this
  have hPl : (tokenPreamble env c false (logDebug st)).nLogin = st.nLogin + 1 := by
    have := tokenPreamble_nLogin_true env c false (logDebug st) hcond
    simpa using this
  have hstep := getData_step_good env c sn false r st d hr (by rw [hPn]; exact hgood)
  rw [hstep]
  exact ⟨rfl, by simp [hPl], by simp [hPn], by simp [hPtok]⟩

/-- C4 witness: the amended statement at a concrete input. -/
theorem C4_witness :
    (getData envLoginErrGoodStatus exCreds "sn" false 3 stEmpty).fst = exPayload ∧
    ((getData envLoginErrGoodStatus exCreds "sn" false 3 stEmpty).snd).nLogin =
      stEmpty.nLogin + 1 ∧
    ((getData envLoginErrGoodStatus exCreds "sn" false 3 stEmpty).snd).nStatus =
      stEmpty.nStatus + 1 ∧
    ((getData envLoginErrGoodStatus exCreds "sn" false 3 stEmpty).snd).token = Json.null := by
  apply C4_theorem envLoginErrGoodStatus exCreds "sn" 3 stEmpty exPayload
    (by decide) (by decide) trivial
  exact ⟨⟨200, some (Json.obj [("msg", Json.str "success"), ("data", exPayload)])⟩,
         Json.obj [("msg", Json.str "success"), ("data", exPayload)],
         rfl, rfl, rfl, rfl, rfl⟩

/-- C4 counterexample: the login POST suffers a transport failure, yet
`getData` neither propagates it nor stops: it stores `None` as the
token, issues the status request anyway and returns its payload. -/
theorem C4_counterexample :
    (getData envLoginErrGoodStatus exCreds "sn" false 3 stEmpty).fst = exPayload ∧
    ((getData envLoginErrGoodStatus exCreds "sn" false 3 stEmpty).snd).nStatus = 1 ∧
    ((getData envLoginErrGoodStatus exCreds "sn" false 3 stEmpty).snd).token = Json.null := by
  refine ⟨?_, ?_, ?_⟩ <;>
    simp [getData, getDataBody, tokenPreamble, getLoginToken, getLoginTokenBody,
          doLoginPost, doWallboxPost, raise_for_status, envLoginErrGoodStatus, respGood,
          stEmpty, exCreds, exPayload, logDebug, logInfo, logError, pushEvent,
          Json.isNull, Json.eqStr, Json.getKey, findField, Except.map]

/-- C5: if the first `N - 1` status attempts soft-fail and the `N`-th
returns `msg = "success"` with a non-null payload, and `N` is within
the budget, `getData` returns that payload with exactly `N` status
POSTs, at most one login per attempt, and no other network call. -/
theorem C5_theorem (env : Env) (c : Creds) (sn : String) (N : Nat) (B : Int)
    (renew : Bool) (st : St) (d : Json)
    (hN : 1 ≤ N) (hB : (N : Int) ≤ B)
    (hbefore : ∀ i, i + 1 < N → statusBad (env.status (st.nStatus + i)))
    (hNth : statusGood (env.status (st.nStatus + (N - 1))) d) :
    (getData env c sn renew B st).fst = d ∧
    ((getData env c sn renew B st).snd).nStatus = st.nStatus + N ∧
    ((getData env c sn renew B st).snd).nLogin =
      st.nLogin + (if st.token.isNull || renew then N else N - 1) ∧
    ((getData env c sn renew B st).snd).nCharging = st.nCharging ∧
    ((getData env c sn renew B st).snd).nChargeMode = st.nChargeMode := by
  obtain ⟨n, rfl⟩ : ∃ n, N = n + 1 := ⟨N - 1, by omega⟩
  have h := getData_goodAt env c sn n B renew st d (by push_cast at hB ⊢; omega)
    (fun i hi => hbefore i (by omega)) (by simpa using hNth)
  obtain ⟨h1, h2, h3, h4, h5⟩ := h
  refine ⟨h1, by omega, ?_, h4, h5⟩
  rw [h3]
  by_cases hc : (st.token.isNull || renew) = true <;> simp [hc]

/-- C5 witness: success on the first attempt with a held token — the
payload comes back after one status POST and no login. -/
theorem C5_witness :
    (getData envGoodStatus exCreds "sn" false 20 stWithToken).fst = exPayload ∧
    ((getData envGoodStatus exCreds "sn" false 20 stWithToken).snd).nStatus =
      stWithToken.nStatus + 1 ∧
    ((getData envGoodStatus exCreds "sn" false 20 stWithToken).snd).nLogin =
      stWithToken.nLogin + (if stWithToken.token.isNull || false then 1 else 1 - 1) ∧
    ((getData envGoodStatus exCreds "sn" false 20 stWithToken).snd).nCharging =
      stWithToken.nCharging ∧
    ((getData envGoodStatus exCreds "sn" false 20 stWithToken).snd).nChargeMode =
      stWithToken.nChargeMode := by
  apply C5_theorem envGoodStatus exCreds "sn" 1 20 false stWithToken exPayload
    (by decide) (by decide) (fun i hi => absurd hi (by omega))
  exact ⟨⟨200, some (Json.obj [("msg", Json.str "success"), ("data", exPayload)])⟩,
         Json.obj [("msg", Json.str "success"), ("data", exPayload)],
         rfl, rfl, rfl, rfl, rfl⟩

/-- C6 (amended): the set-charge-mode request body contains
`charge_power` iff the provided `chargePower` is truthy in Python's
sense — non-`None` and non-zero — and then holds it verbatim; both an
absent `chargePower` and an explicit 0 omit the field entirely. -/
theorem C6_theorem (env : Env) (c : Creds) (sn mode : String) (cp : Option Int)
    (renew : Bool) (r : Int) (st : St) (hr : 0 < r) :
    chargeModeBodies (((set_charge_mode env c sn mode cp renew r st).snd).events) =
      chargeModeBodies st.events ++
        [if pyTruthy cp then
           Json.obj [("sn", Json.str sn), ("type", Json.str mode),
                     ("charge_power", Json.num (cp.getD 0))]
         else Json.obj [("sn", Json.str sn), ("type", Json.str mode)]] ∧
    (pyTruthy cp = false ↔ (cp = none ∨ cp = some 0)) := by
  refine ⟨set_charge_mode_bodies env c sn mode cp renew r st hr, ?_⟩
  cases cp <;> simp [pyTruthy]

/-- C6 witness: `chargePower = 7400` puts `charge_power: 7400` in the
body verbatim. -/
theorem C6_witness :
    chargeModeBodies
        (((set_charge_mode envAllErr exCreds "SN1" "fast" (some 7400) false 20
             stWithToken).snd).events) =
      chargeModeBodies stWithToken.events ++
        [if pyTruthy (some 7400) then
           Json.obj [("sn", Json.str "SN1"), ("type", Json.str "fast"),
                     ("charge_power", Json.num ((some (7400 : Int)).getD 0))]
         else Json.obj [("sn", Json.str "SN1"), ("type", Json.str "fast")]] ∧
    (pyTruthy (some 7400) = false ↔ ((some (7400 : Int)) = none ∨ (some (7400 : Int)) = some 0)) :=
  C6_theorem envAllErr exCreds "SN1" "fast" (some 7400) false 20 stWithToken (by decide)

/-- C6 counterexample: `chargePower = 0` is provided, yet the request
body omits `charge_power` entirely — the field is not present iff the
value is absent, refuting the claimed equivalence. -/
theorem C6_counterexample :
    chargeModeBodies
        (((set_charge_mode envAllErr exCreds "SN1" "fast" (some 0) false 20
             stWithToken).snd).events) =
      [Json.obj [("sn", Json.str "SN1"), ("type", Json.str "fast")]] := by
  simp [set_charge_mode, set_charge_modeBody, doChargeModePost, tokenPreamble,
        chargeModeBodies, envAllErr, stWithToken, exToken, exCreds, pyTruthy,
        logDebug, logInfo, logError, logWarn, pushEvent, Json.isNull]

/-- C7: `change_status` (set_power_state) and `set_charge_mode` never
raise to their caller: they return `None` on every input, and on a
transport failure of their command POST the run ends with an error log
record. -/
theorem C7_theorem (env : Env) (c : Creds) (sn : String) (status : Int)
    (sn2 mode : String) (cp : Option Int) (renew renew2 : Bool) (r r2 : Int)
    (st st2 : St) :
    ((change_status env c sn status renew r st).fst = Json.null ∧
     (set_charge_mode env c sn2 mode cp renew2 r2 st2).fst = Json.null) ∧
    (0 < r → env.charging st.nCharging = NetResult.err →
      (((change_status env c sn status renew r st).snd).events).getLast? =
        some (Event.log LogLevel.error)) ∧
    (0 < r2 → env.chargeMode st2.nChargeMode = NetResult.err →
      (((set_charge_mode env c sn2 mode cp renew2 r2 st2).snd).events).getLast? =
        some (Event.log LogLevel.error)) := by
  refine ⟨⟨change_status_returns_null env c sn status renew r st,
           set_charge_mode_returns_null env c sn2 mode cp renew2 r2 st2⟩, ?_, ?_⟩
  · intro hr hcm
    obtain ⟨st', hb⟩ := change_statusBody_transport env c sn status renew r st hr hcm
    rw [change_status_err env c sn status renew r st PyErr.requestError st' hb]
    simp [logError, pushEvent, List.getLast?_concat]
  · intro hr hcm
    obtain ⟨st', hb⟩ := set_charge_modeBody_transport env c sn2 mode cp renew2 r2 st2 hr hcm
    rw [set_charge_mode_err env c sn2 mode cp renew2 r2 st2 PyErr.requestError st' hb]
    simp [logError, pushEvent, List.getLast?_concat]

/-- C7 witness: with a dead network both command operations return
`None` and end their trace with an error log. -/
theorem C7_witness :
    ((change_status envAllErr exCreds "SN1" 1 false 2 stEmpty).fst = Json.null ∧
     (set_charge_mode envAllErr exCreds "SN1" "fast" none false 20 stEmpty).fst = Json.null) ∧
    (((change_status envAllErr exCreds "SN1" 1 false 2 stEmpty).snd).events).getLast? =
      some (Event.log LogLevel.error) ∧
    (((set_charge_mode envAllErr exCreds "SN1" "fast" none false 20 stEmpty).snd).events).getLast? =
      some (Event.log LogLevel.error) := by
  have h := C7_theorem envAllErr exCreds "SN1" 1 "SN1" "fast" none false false 2 20
    stEmpty stEmpty
  exact ⟨h.1, h.2.1 (by decide) rfl, h.2.2 (by decide) rfl⟩

/-- C10: whenever the shared token-acquisition preamble runs (no token
held, or renewal forced), the stored token is unconditionally
overwritten with `getLoginToken`'s result; since that result is `None`
on failure, a failed re-authentication replaces a previously valid
token with `None`. -/
theorem C10_theorem (env : Env) (c : Creds) (b : Bool) (st : St) :
    ((st.token.isNull || b) = true →
      (tokenPreamble env c b st).token =
        (getLoginToken env c.username c.password (logDebug st)).fst) ∧
    (∀ tk, st.token = Json.obj tk →
      loginFailing (env.login st.nLogin) →
      (tokenPreamble env c true st).token = Json.null) := by
  constructor
  · exact tokenPreamble_token_overwrite env c b st
  · intro tk htk hfail
    rw [tokenPreamble_token_overwrite env c true st (by simp)]
    apply getLoginToken_fail
    simpa using hfail

/-- C10 witness: a held valid token is replaced by `None` when the
forced re-login dies on the network. -/
theorem C10_witness :
    (tokenPreamble envAllErr exCreds true stWithToken).token = Json.null :=
  (C10_theorem envAllErr exCreds true stWithToken).2
    [("uid", Json.str "u"), ("api", Json.str "https://eu.semsportal.com/api/")] rfl trivial

end Sems
